import Mathlib

/-!
Shallow embedding of the ingestion and snapshot-storage core of
`src/app.py` (classes `DatabaseManager` and `SteamParser`).

The PostgreSQL tables `parse_sessions`, `profiles` and `profile_snapshots`
are modelled as Lean lists of row structures inside a `DB` state, with the
SERIAL id generators carried explicitly.  `DECIMAL(10, 2)` money columns are
modelled as `Rat` (exact rationals; the two-digit rounding of the column
type is not exercised by any claim).  `TIMESTAMP` values are modelled as an
abstract `Nat` clock; the `strftime` display strings derived from a
timestamp are rendered with `toString`, keeping only the fact that they are
computed from the timestamp.  Python dictionary payloads accessed with
`.get` are modelled as structures of `Option` fields, with `Option.getD`
standing for `.get` with an explicit default.
-/

namespace SteamParserSQL

/-- The `profile_data` payload dictionary produced by
`SteamParser.parse_account` and consumed by `DatabaseManager`; absent keys
(Python `.get` returning `None`) are `none`. -/
structure ProfileData where
  nickname : Option String
  country : Option String
  avatar : Option String
  steam_level : Option Int
  games_count : Option Int
  library_value : Option Rat
  inventory_value : Option Rat
  profile_url : Option String
  parsed_at : Option Nat
deriving DecidableEq

/-- A payload with every key absent. -/
def ProfileData.empty : ProfileData :=
  ⟨none, none, none, none, none, none, none, none, none⟩

/-- One row of the `parse_sessions` table. -/
structure SessionRow where
  id : Nat
  parse_time : Nat
  parse_time_display : String
  timestamp_str : String
  total_profiles : Int
  successful_profiles : Int
  failed_profiles : Int
  status : String
deriving DecidableEq

/-- One row of the `profiles` table (nullable columns are `Option`). -/
structure ProfileRow where
  id : Nat
  steam_id : String
  nickname : Option String
  country : Option String
  avatar_url : Option String
  steam_level : Option Int
  profile_url : Option String
  first_seen : Nat
  last_updated : Nat
deriving DecidableEq

/-- One row of the `profile_snapshots` table. -/
structure SnapshotRow where
  id : Nat
  session_id : Nat
  profile_id : Nat
  steam_level : Int
  games_count : Int
  library_value : Rat
  inventory_value : Rat
  total_value : Rat
  parsed_at : Nat
  status : String
  error_message : Option String
deriving DecidableEq

/-- The database state: the three tables in insertion order plus the next
value of each SERIAL id sequence. -/
structure DB where
  sessions : List SessionRow
  profiles : List ProfileRow
  snapshots : List SnapshotRow
  next_session_id : Nat
  next_profile_id : Nat
  next_snapshot_id : Nat
deriving DecidableEq

/-- The freshly initialised database (`_create_tables`): empty tables,
SERIAL sequences starting at 1. -/
def emptyDB : DB := ⟨[], [], [], 1, 1, 1⟩

/-- `DatabaseManager.create_parse_session`: INSERT a new `parse_sessions`
row in status "pending" with the two display strings derived from the
timestamp, RETURNING its id. -/
def create_parse_session (db : DB) (parse_time : Nat) : DB × Nat :=
  let sid := db.next_session_id
  ({ db with
      sessions := db.sessions ++
        [⟨sid, parse_time, toString parse_time, toString parse_time, 0, 0, 0, "pending"⟩],
      next_session_id := sid + 1 }, sid)

/-- `DatabaseManager.update_session_stats`: UPDATE the counts of the session
row with the given id, with `status = CASE WHEN successful > 0 THEN
"success" ELSE "failed" END`. -/
def update_session_stats (db : DB) (session_id : Nat)
    (total_profiles successful failed : Int) : DB :=
  { db with
      sessions := db.sessions.map fun s =>
        if s.id = session_id then
          { s with
              total_profiles := total_profiles,
              successful_profiles := successful,
              failed_profiles := failed,
              status := if successful > 0 then "success" else "failed" }
        else s }

/-- The UPDATE ... SET list of `get_or_create_profile`: the mutable
attributes and the `last_updated` stamp; `id`, `steam_id` and `first_seen`
are not in the SET list. -/
def applyProfileUpdate (d : ProfileData) (now : Nat) (q : ProfileRow) : ProfileRow :=
  { q with
      nickname := d.nickname,
      country := d.country,
      avatar_url := d.avatar,
      steam_level := d.steam_level,
      profile_url := d.profile_url,
      last_updated := now }

/-- `DatabaseManager.get_or_create_profile`: SELECT by `steam_id`; if a row
is found, UPDATE its mutable attributes (by primary key `id`) and return the
existing id, otherwise INSERT a new row RETURNING the new id. -/
def get_or_create_profile (db : DB) (steam_id : String) (d : ProfileData)
    (now : Nat) : DB × Option Nat :=
  match db.profiles.find? (fun p => p.steam_id = steam_id) with
  | some p =>
      ({ db with
          profiles := db.profiles.map fun q =>
            if q.id = p.id then applyProfileUpdate d now q else q }, some p.id)
  | none =>
      let pid := db.next_profile_id
      ({ db with
          profiles := db.profiles ++
            [⟨pid, steam_id, d.nickname, d.country, d.avatar, d.steam_level,
              d.profile_url, now, now⟩],
          next_profile_id := pid + 1 }, some pid)

/-- The `(session_id, profile_id)` key the UNIQUE constraint of
`profile_snapshots` is declared on. -/
def snapshotMatches (session_id profile_id : Nat) (r : SnapshotRow) : Bool :=
  r.session_id = session_id && r.profile_id = profile_id

/-- The DO UPDATE SET list of `save_profile_snapshot`: the measurement
columns, `parsed_at`, `status` and `error_message`; the key columns and
`total_value` are not in the SET list. -/
def applySnapshotUpdate (d : ProfileData) (status : String)
    (error : Option String) (now : Nat) (r : SnapshotRow) : SnapshotRow :=
  { r with
      steam_level := d.steam_level.getD 0,
      games_count := d.games_count.getD 0,
      library_value := d.library_value.getD 0,
      inventory_value := d.inventory_value.getD 0,
      parsed_at := d.parsed_at.getD now,
      status := status,
      error_message := error }

/-- `DatabaseManager.save_profile_snapshot`: INSERT the measurement columns
ON CONFLICT `(session_id, profile_id)` DO UPDATE of exactly those columns.
The `total_value` column is not named in the INSERT column list (so an
inserted row takes its schema default 0) nor in the DO UPDATE SET list (so
a conflicting re-write leaves it unchanged). -/
def save_profile_snapshot (db : DB) (session_id profile_id : Nat)
    (d : ProfileData) (status : String) (error : Option String) (now : Nat) : DB :=
  if db.snapshots.any (snapshotMatches session_id profile_id) then
    { db with
        snapshots := db.snapshots.map fun r =>
          if snapshotMatches session_id profile_id r then
            applySnapshotUpdate d status error now r
          else r }
  else
    { db with
        snapshots := db.snapshots ++
          [⟨db.next_snapshot_id, session_id, profile_id, d.steam_level.getD 0,
            d.games_count.getD 0, d.library_value.getD 0,
            d.inventory_value.getD 0, 0, d.parsed_at.getD now, status, error⟩],
        next_snapshot_id := db.next_snapshot_id + 1 }

/-- `DatabaseManager.delete_session`: DELETE the session row; the
`ON DELETE CASCADE` foreign key removes its snapshots. -/
def delete_session (db : DB) (session_id : Nat) : DB :=
  { db with
      sessions := db.sessions.filter (fun s => ¬ s.id = session_id),
      snapshots := db.snapshots.filter (fun r => ¬ r.session_id = session_id) }

/-- The snapshots of one session, in table (insertion) order. -/
def sessionSnapshots (db : DB) (sid : Nat) : List SnapshotRow :=
  db.snapshots.filter (fun r => r.session_id = sid)

/-- The `country` of the profile a snapshot points at, through the LEFT
JOIN of the `session_summary` view (`none` when the profile is absent or
its country is NULL). -/
def snapshotCountry (db : DB) (r : SnapshotRow) : Option String :=
  match db.profiles.find? (fun p => p.id = r.profile_id) with
  | some p => p.country
  | none => none

/-- One row of the `session_summary` view. -/
structure SummaryRow where
  session_id : Nat
  parse_time : Nat
  parse_time_display : String
  total_profiles : Int
  successful_profiles : Int
  failed_profiles : Int
  status : String
  countries_count : Nat
  total_games : Int
  avg_level : Rat
  total_library_value : Rat
  total_inventory_value : Rat
  grand_total_value : Rat
deriving DecidableEq

/-- The `session_summary` view row of one session: LEFT JOIN from the
session through its snapshots to their profiles, grouped per session, with
`COALESCE(..., 0)` zero-defaulting each aggregate when the session has no
snapshots.  `AVG` of no rows is NULL, hence 0 after COALESCE; the
`NUMERIC(10,2)` presentation cast on the average is abstracted away. -/
def summarize (db : DB) (s : SessionRow) : SummaryRow :=
  let snaps := sessionSnapshots db s.id
  { session_id := s.id,
    parse_time := s.parse_time,
    parse_time_display := s.parse_time_display,
    total_profiles := s.total_profiles,
    successful_profiles := s.successful_profiles,
    failed_profiles := s.failed_profiles,
    status := s.status,
    countries_count := ((snaps.filterMap (snapshotCountry db)).dedup).length,
    total_games := (snaps.map SnapshotRow.games_count).sum,
    avg_level :=
      if snaps.isEmpty then 0
      else (snaps.map (fun r => (r.steam_level : Rat))).sum / (snaps.length : Rat),
    total_library_value := (snaps.map SnapshotRow.library_value).sum,
    total_inventory_value := (snaps.map SnapshotRow.inventory_value).sum,
    grand_total_value := (snaps.map (fun r => r.library_value + r.inventory_value)).sum }

/-- The whole `session_summary` view: one row per `parse_sessions` row. -/
def session_summary (db : DB) : List SummaryRow :=
  db.sessions.map (summarize db)

/-- `DatabaseManager.get_sessions`: the view rows ORDER BY `parse_time`
DESC, LIMIT `limit`. -/
def get_sessions (db : DB) (limit : Nat) : List SummaryRow :=
  ((session_summary db).mergeSort
    (fun a b => decide (b.parse_time ≤ a.parse_time))).take limit

/-- `DatabaseManager.get_session_by_id`: the view row of one session. -/
def get_session_by_id (db : DB) (session_id : Nat) : Option SummaryRow :=
  (session_summary db).find? (fun r => r.session_id = session_id)

/-- One row of the `get_session_profiles` projection: a snapshot JOINed
with its profile row. -/
structure JoinedRow where
  profile : ProfileRow
  snapshot_level : Int
  games_count : Int
  library_value : Rat
  inventory_value : Rat
  total_value : Rat
  parsed_at : Nat
  snapshot_status : String
  error_message : Option String
deriving DecidableEq

/-- The unsorted inner JOIN of one session's snapshots with `profiles`
(`ps.profile_id = p.id`), in snapshot insertion order. -/
def session_profiles_join (db : DB) (sid : Nat) : List JoinedRow :=
  (sessionSnapshots db sid).filterMap fun r =>
    (db.profiles.find? (fun p => p.id = r.profile_id)).map fun p =>
      ⟨p, r.steam_level, r.games_count, r.library_value, r.inventory_value,
        r.total_value, r.parsed_at, r.status, r.error_message⟩

/-- `DatabaseManager.get_session_profiles`: the JOIN ordered by the stored
`total_value` column, descending (ties keep the underlying scan order). -/
def get_session_profiles (db : DB) (sid : Nat) : List JoinedRow :=
  (session_profiles_join db sid).mergeSort
    (fun a b => decide (b.total_value ≤ a.total_value))

/-- The result of running Python code that may raise: a value or a raised
exception carrying its message. -/
inductive ExecResult (α : Type) where
  | ok (a : α)
  | err (msg : String)
deriving DecidableEq

/-- What `DatabaseManager.get_connection` leaves behind: the propagated
result of the block that used the connection, the durable database state,
and whether the connection was opened and closed. -/
structure ConnOutcome (α : Type) where
  result : ExecResult α
  durable : DB
  conn_opened : Bool
  conn_closed : Bool
deriving DecidableEq

/-- `DatabaseManager.get_connection`: `psycopg2.connect` may fail (the
`connect_fails` oracle); on failure the except clause re-raises and the
finally clause finds `conn` still None, so nothing is closed.  Otherwise
the block `use` runs with the open connection — it reports its result (ok,
or a re-raised exception) together with the durable state it leaves — and
the finally clause closes the connection on both exits. -/
def get_connection {α : Type} (connect_fails : Bool) (db : DB)
    (use : DB → ExecResult α × DB) : ConnOutcome α :=
  if connect_fails then
    { result := .err "connection failed", durable := db,
      conn_opened := false, conn_closed := false }
  else
    let (r, db') := use db
    { result := r, durable := db', conn_opened := true, conn_closed := true }

/-- What `DatabaseManager.get_cursor` leaves behind, adding the cursor's
lifecycle to the connection's. -/
structure CursorOutcome (α : Type) where
  result : ExecResult α
  durable : DB
  conn_opened : Bool
  conn_closed : Bool
  cursor_opened : Bool
  cursor_closed : Bool
deriving DecidableEq

/-- `DatabaseManager.get_cursor`: inside `get_connection`, open a cursor,
run the transaction body on the connection's view of the database, then
`conn.commit()` on success, or `conn.rollback()` and re-raise on any
exception, and close the cursor in the finally clause.  The body maps the
in-transaction state to either `ok` with the new state and a value, or a
raised exception; commit publishes the new state, rollback keeps the
pre-transaction state.  The cursor exists exactly when the connection was
obtained, and its finally clause closes it on every exit. -/
def get_cursor {α : Type} (connect_fails : Bool) (db : DB)
    (body : DB → ExecResult (DB × α)) : CursorOutcome α :=
  let c := get_connection connect_fails db fun pending =>
    match body pending with
    | .ok (db', a) => (.ok a, db')
    | .err e => (.err e, pending)
  { result := c.result, durable := c.durable,
    conn_opened := c.conn_opened, conn_closed := c.conn_closed,
    cursor_opened := c.conn_opened, cursor_closed := c.conn_opened }

/-- The outcome of `SteamParser.parse_account` for one roster entry: the
function catches every exception of the fetch phase itself, so it always
returns a result dict — either `success = True` with the extracted
steam id and the data payload, or `success = False` with an error text. -/
inductive ParseOutcome where
  | fetched (steam_id : String) (data : ProfileData)
  | fetchFailed (err : String)
deriving DecidableEq

/-- Oracle for the storage calls made for one roster entry inside
`parse_all_accounts`: both calls succeed; or `get_or_create_profile`
returns no id (falsy, taken by the `else` branch); or one of the two calls
raises a storage exception out of `get_cursor`. -/
inductive StoreOracle where
  | ok
  | registryNone
  | registryRaises
  | snapshotRaises
deriving DecidableEq

/-- One roster entry of `STEAM_ACCOUNTS` together with the behaviour of its
external fetch and of the store during its processing. -/
structure RosterEntry where
  account : String
  outcome : ParseOutcome
  oracle : StoreOracle
deriving DecidableEq

/-- The error text recorded when `get_or_create_profile` returns no id. -/
def dbSaveError : String := "Не удалось сохранить профиль в БД"

/-- The per-entry loop of `SteamParser.parse_all_accounts`, threading the
database and the `successful_profiles` and `failed_profiles` accumulators.
A fetch failure or a falsy profile id appends to `failed_profiles` and the
loop continues with the next entry; a storage exception raised by
`get_or_create_profile` or `save_profile_snapshot` is not caught anywhere
in the loop, so it propagates out immediately (the state committed by
already-completed transactions stays durable). -/
def parseLoop (session_id now : Nat) :
    List RosterEntry → DB → List ProfileData → List (String × String) →
      DB × ExecResult (List ProfileData × List (String × String))
  | [], db, succ, failed => (db, .ok (succ, failed))
  | e :: rest, db, succ, failed =>
    match e.outcome with
    | .fetchFailed err =>
        parseLoop session_id now rest db succ (failed ++ [(e.account, err)])
    | .fetched sid d =>
      match e.oracle with
      | .registryRaises => (db, .err "StorageUnavailable")
      | .registryNone =>
          parseLoop session_id now rest db succ (failed ++ [(e.account, dbSaveError)])
      | .snapshotRaises =>
          ((get_or_create_profile db sid d now).1, .err "StorageUnavailable")
      | .ok =>
        match get_or_create_profile db sid d now with
        | (db1, some pid) =>
            parseLoop session_id now rest
              (save_profile_snapshot db1 session_id pid d "success" none now)
              (succ ++ [d]) failed
        | (db1, none) =>
            parseLoop session_id now rest db1 succ (failed ++ [(e.account, dbSaveError)])

/-- `SteamParser.parse_all_accounts`: create a pending session, process the
roster sequentially through `parseLoop`, and — when no storage exception
aborted the loop — finalize by calling `update_session_stats` with the
roster length and the lengths of the two accumulators.  (`INSERT ...
RETURNING id` always yields a row when its transaction commits, so the
Python `if not session_id` guard is the unreachable branch of the model;
session-creation failure is a raise, which would propagate before the loop
starts.) -/
def parse_all_accounts (db : DB) (now : Nat) (entries : List RosterEntry) :
    DB × ExecResult (Nat × List ProfileData × List (String × String)) :=
  let (db1, session_id) := create_parse_session db now
  match parseLoop session_id now entries db1 [] [] with
  | (db2, .ok (succ, failed)) =>
      (update_session_stats db2 session_id (entries.length : Int)
        (succ.length : Int) (failed.length : Int),
       .ok (session_id, succ, failed))
  | (db2, .err e) => (db2, .err e)

/-- The write operations `DatabaseManager` exposes on the store. -/
inductive Op where
  | createSession (parse_time : Nat)
  | updateStats (session_id : Nat) (total successful failed : Int)
  | resolveProfile (steam_id : String) (d : ProfileData) (now : Nat)
  | saveSnapshot (session_id profile_id : Nat) (d : ProfileData)
      (status : String) (error : Option String) (now : Nat)
  | deleteSession (session_id : Nat)
deriving DecidableEq

/-- Apply one write operation to the database state. -/
def applyOp (db : DB) : Op → DB
  | .createSession t => (create_parse_session db t).1
  | .updateStats sid t s f => update_session_stats db sid t s f
  | .resolveProfile sid d now => (get_or_create_profile db sid d now).1
  | .saveSnapshot sid pid d st e now => save_profile_snapshot db sid pid d st e now
  | .deleteSession sid => delete_session db sid

/-- The UNIQUE `(session_id, profile_id)` invariant of `profile_snapshots`:
no two rows of the list share the pair. -/
def pairUnique (l : List SnapshotRow) : Prop :=
  l.Pairwise fun a b => ¬ (a.session_id = b.session_id ∧ a.profile_id = b.profile_id)

/-! ### Frame lemmas for the row update functions -/

theorem applySnapshotUpdate_session_id (d : ProfileData) (st : String)
    (e : Option String) (now : Nat) (r : SnapshotRow) :
    (applySnapshotUpdate d st e now r).session_id = r.session_id := rfl

theorem applySnapshotUpdate_profile_id (d : ProfileData) (st : String)
    (e : Option String) (now : Nat) (r : SnapshotRow) :
    (applySnapshotUpdate d st e now r).profile_id = r.profile_id := rfl

theorem applySnapshotUpdate_total_value (d : ProfileData) (st : String)
    (e : Option String) (now : Nat) (r : SnapshotRow) :
    (applySnapshotUpdate d st e now r).total_value = r.total_value := rfl

theorem applyProfileUpdate_id (d : ProfileData) (now : Nat) (q : ProfileRow) :
    (applyProfileUpdate d now q).id = q.id := rfl

theorem applyProfileUpdate_steam_id (d : ProfileData) (now : Nat) (q : ProfileRow) :
    (applyProfileUpdate d now q).steam_id = q.steam_id := rfl

theorem snapshotMatches_iff {s p : Nat} {r : SnapshotRow} :
    snapshotMatches s p r = true ↔ r.session_id = s ∧ r.profile_id = p := by
  simp [snapshotMatches]

theorem snapshotMatches_applySnapshotUpdate (s p : Nat) (d : ProfileData)
    (st : String) (e : Option String) (now : Nat) (r : SnapshotRow) :
    snapshotMatches s p (applySnapshotUpdate d st e now r) = snapshotMatches s p r := by
  simp [snapshotMatches, applySnapshotUpdate]

/-! ### Helper lemmas about `save_profile_snapshot` -/

/-- Mapping an in-place update over a list leaves the length of any filter
unchanged, provided the update preserves the filter predicate. -/
theorem length_filter_map_ite {α : Type} (m : α → Bool) (f : α → α)
    (hf : ∀ a, m (f a) = m a) (l : List α) :
    ((l.map fun a => if m a then f a else a).filter m).length = (l.filter m).length := by
  induction l with
  | nil => rfl
  | cons a t ih =>
    by_cases h : m a = true
    · simp only [List.map_cons, List.filter_cons, h, if_pos, hf a, ih,
        List.length_cons]
    · have h' : m a = false := by revert h; cases m a <;> simp
      simp [List.filter_cons, h', ih]

/-- Under the UNIQUE invariant, at most one row carries a given
`(session_id, profile_id)` pair. -/
theorem pairUnique_length_filter_le (s p : Nat) {l : List SnapshotRow}
    (h : pairUnique l) : (l.filter (snapshotMatches s p)).length ≤ 1 := by
  induction h with
  | nil => simp
  | @cons a t ha _ ih =>
    by_cases hm : snapshotMatches s p a = true
    · obtain ⟨h1, h2⟩ := snapshotMatches_iff.mp hm
      have ht : t.filter (snapshotMatches s p) = [] := by
        rw [List.filter_eq_nil_iff]
        intro b hb hmb
        obtain ⟨hb1, hb2⟩ := snapshotMatches_iff.mp hmb
        exact ha b hb ⟨h1.trans hb1.symm, h2.trans hb2.symm⟩
      simp [List.filter_cons, hm, ht]
    · have hm' : snapshotMatches s p a = false := by
        revert hm; cases snapshotMatches s p a <;> simp
      simpa [List.filter_cons, hm'] using ih

/-- `save_profile_snapshot` preserves the UNIQUE `(session_id, profile_id)`
invariant: the conflict branch updates rows in place without touching the
key columns, and the insert branch only fires when no row carries the
key. -/
theorem save_profile_snapshot_pairUnique (db : DB) (s p : Nat) (d : ProfileData)
    (st : String) (e : Option String) (now : Nat) (h : pairUnique db.snapshots) :
    pairUnique (save_profile_snapshot db s p d st e now).snapshots := by
  unfold save_profile_snapshot
  by_cases hany : db.snapshots.any (snapshotMatches s p) = true
  · simp only [hany, if_pos]
    refine List.pairwise_map.mpr (h.imp_of_mem ?_)
    intro a b _ _ hab hkeys
    apply hab
    by_cases hma : snapshotMatches s p a = true <;>
      by_cases hmb : snapshotMatches s p b = true <;>
        simpa [hma, hmb, applySnapshotUpdate_session_id,
          applySnapshotUpdate_profile_id] using hkeys
  · have hany' : db.snapshots.any (snapshotMatches s p) = false := by
      revert hany; cases db.snapshots.any (snapshotMatches s p) <;> simp
    simp only [hany', Bool.false_eq_true, if_neg, not_false_eq_true]
    rw [pairUnique, List.pairwise_append]
    refine ⟨h, by simp, ?_⟩
    intro a hain b hbin
    have hma := List.any_eq_false.mp hany' a hain
    simp only [List.mem_singleton] at hbin
    subst hbin
    intro ⟨h1, h2⟩
    exact hma (snapshotMatches_iff.mpr ⟨h1, h2⟩)

/-- After `save_profile_snapshot`, exactly one row carries the written
`(session_id, profile_id)` pair. -/
theorem save_profile_snapshot_count (db : DB) (s p : Nat) (d : ProfileData)
    (st : String) (e : Option String) (now : Nat) (h : pairUnique db.snapshots) :
    (((save_profile_snapshot db s p d st e now).snapshots).filter
      (snapshotMatches s p)).length = 1 := by
  unfold save_profile_snapshot
  by_cases hany : db.snapshots.any (snapshotMatches s p) = true
  · simp only [hany, if_pos]
    rw [length_filter_map_ite _ _ (snapshotMatches_applySnapshotUpdate s p d st e now)]
    obtain ⟨x, hx, hmx⟩ := List.any_eq_true.mp hany
    have hge : 1 ≤ (db.snapshots.filter (snapshotMatches s p)).length := by
      have : x ∈ db.snapshots.filter (snapshotMatches s p) :=
        List.mem_filter.mpr ⟨hx, hmx⟩
      exact List.length_pos.mpr (List.ne_nil_of_mem this)
    exact Nat.le_antisymm (pairUnique_length_filter_le s p h) hge
  · have hany' : db.snapshots.any (snapshotMatches s p) = false := by
      revert hany; cases db.snapshots.any (snapshotMatches s p) <;> simp
    simp only [hany', Bool.false_eq_true, if_neg, not_false_eq_true]
    rw [List.filter_append]
    have hnil : db.snapshots.filter (snapshotMatches s p) = [] := by
      rw [List.filter_eq_nil_iff]
      intro a ha hma
      exact absurd hma (by simpa using List.any_eq_false.mp hany' a ha)
    rw [hnil]
    simp [snapshotMatches]

/-- Every row carrying the written pair after `save_profile_snapshot` holds
exactly the measurement payload of that call. -/
theorem save_profile_snapshot_values (db : DB) (s p : Nat) (d : ProfileData)
    (st : String) (e : Option String) (now : Nat) :
    ∀ r ∈ (save_profile_snapshot db s p d st e now).snapshots,
      snapshotMatches s p r = true →
        r.steam_level = d.steam_level.getD 0 ∧
        r.games_count = d.games_count.getD 0 ∧
        r.library_value = d.library_value.getD 0 ∧
        r.inventory_value = d.inventory_value.getD 0 ∧
        r.parsed_at = d.parsed_at.getD now ∧
        r.status = st ∧ r.error_message = e := by
  intro r hr hmr
  unfold save_profile_snapshot at hr
  by_cases hany : db.snapshots.any (snapshotMatches s p) = true
  · simp only [hany, if_pos, List.mem_map] at hr
    obtain ⟨a, _, heq⟩ := hr
    by_cases hma : snapshotMatches s p a = true
    · rw [if_pos hma] at heq
      subst heq
      simp [applySnapshotUpdate]
    · rw [if_neg hma] at heq
      subst heq
      exact absurd hmr hma
  · have hany' : db.snapshots.any (snapshotMatches s p) = false := by
      revert hany; cases db.snapshots.any (snapshotMatches s p) <;> simp
    simp only [hany', Bool.false_eq_true, if_neg, not_false_eq_true,
      List.mem_append, List.mem_singleton] at hr
    rcases hr with hr | hr
    · exact absurd hmr (by simpa using List.any_eq_false.mp hany' r hr)
    · subst hr
      simp

/-! ### C1: idempotent upsert of `save_profile_snapshot` -/

/-- C1: for any `(session_id, profile_id)` pair, calling
`save_profile_snapshot` twice with two different measurement payloads
leaves exactly one snapshot row for that pair, and its measurement fields
(`steam_level`, `games_count`, `library_value`, `inventory_value`,
`parsed_at`, `status`, `error_message`) equal the second call's payload. -/
theorem save_profile_snapshot_idempotent_upsert (db : DB) (s p : Nat)
    (d1 d2 : ProfileData) (st1 st2 : String) (e1 e2 : Option String)
    (t1 t2 : Nat) (h : pairUnique db.snapshots) :
    (((save_profile_snapshot (save_profile_snapshot db s p d1 st1 e1 t1)
          s p d2 st2 e2 t2).snapshots).filter (snapshotMatches s p)).length = 1 ∧
    ∀ r ∈ (save_profile_snapshot (save_profile_snapshot db s p d1 st1 e1 t1)
        s p d2 st2 e2 t2).snapshots,
      snapshotMatches s p r = true →
        r.steam_level = d2.steam_level.getD 0 ∧
        r.games_count = d2.games_count.getD 0 ∧
        r.library_value = d2.library_value.getD 0 ∧
        r.inventory_value = d2.inventory_value.getD 0 ∧
        r.parsed_at = d2.parsed_at.getD t2 ∧
        r.status = st2 ∧ r.error_message = e2 :=
  ⟨save_profile_snapshot_count _ s p d2 st2 e2 t2
      (save_profile_snapshot_pairUnique db s p d1 st1 e1 t1 h),
    save_profile_snapshot_values _ s p d2 st2 e2 t2⟩

/-- First payload of the concrete double-write used by the witnesses. -/
def exPayload1 : ProfileData :=
  ⟨some "first", some "RU", none, some 5, some 10, none, none, none, some 7⟩

/-- Second payload of the concrete double-write used by the witnesses. -/
def exPayload2 : ProfileData :=
  ⟨some "second", some "DE", none, some 6, some 12, none, none, none, some 8⟩

/-- Witness for C1 at the empty database and two concrete payloads. -/
theorem save_profile_snapshot_idempotent_upsert_witness :
    pairUnique emptyDB.snapshots ∧
    ((((save_profile_snapshot (save_profile_snapshot emptyDB 1 1 exPayload1 "success" none 3)
          1 1 exPayload2 "failed" (some "late") 4).snapshots).filter
            (snapshotMatches 1 1)).length = 1 ∧
      ∀ r ∈ (save_profile_snapshot (save_profile_snapshot emptyDB 1 1 exPayload1 "success" none 3)
          1 1 exPayload2 "failed" (some "late") 4).snapshots,
        snapshotMatches 1 1 r = true →
          r.steam_level = exPayload2.steam_level.getD 0 ∧
          r.games_count = exPayload2.games_count.getD 0 ∧
          r.library_value = exPayload2.library_value.getD 0 ∧
          r.inventory_value = exPayload2.inventory_value.getD 0 ∧
          r.parsed_at = exPayload2.parsed_at.getD 4 ∧
          r.status = "failed" ∧ r.error_message = some "late") :=
  ⟨List.Pairwise.nil,
    save_profile_snapshot_idempotent_upsert emptyDB 1 1 exPayload1 exPayload2
      "success" "failed" none (some "late") 3 4 List.Pairwise.nil⟩

/-! ### C2: UNIQUE (session_id, profile_id) after any operation sequence -/

/-- Each `DatabaseManager` write operation preserves the UNIQUE
`(session_id, profile_id)` invariant of `profile_snapshots`. -/
theorem applyOp_pairUnique (db : DB) (op : Op) (h : pairUnique db.snapshots) :
    pairUnique (applyOp db op).snapshots := by
  cases op with
  | createSession t => exact h
  | updateStats sid t s f => exact h
  | resolveProfile sid d now =>
      show pairUnique (get_or_create_profile db sid d now).1.snapshots
      unfold get_or_create_profile
      cases db.profiles.find? (fun p => p.steam_id = sid) <;> exact h
  | saveSnapshot sid pid d st e now =>
      exact save_profile_snapshot_pairUnique db sid pid d st e now h
  | deleteSession sid => exact List.Pairwise.sublist (List.filter_sublist _) h

/-- C2: after any sequence of operations (snapshot writes, session
creations, profile resolutions, deletions) starting from the initialised
schema, no two rows of `profile_snapshots` share the same
`(session_id, profile_id)` pair. -/
theorem snapshots_pair_unique_after_ops (ops : List Op) :
    pairUnique ((ops.foldl applyOp emptyDB).snapshots) := by
  suffices h : ∀ db, pairUnique db.snapshots →
      pairUnique ((ops.foldl applyOp db).snapshots) from h emptyDB List.Pairwise.nil
  induction ops with
  | nil => intro db h; exact h
  | cons op rest ih => intro db h; exact ih _ (applyOp_pairUnique db op h)

/-! ### C10: `save_profile_snapshot` never writes `total_value` -/

/-- C10: `save_profile_snapshot` never writes the `total_value` column: an
inserted snapshot has `total_value` equal to its schema default 0, and a
conflicting re-write leaves every row's `total_value` unchanged, regardless
of the `library_value` and `inventory_value` supplied. -/
theorem save_profile_snapshot_total_value_frame (db : DB) (s p : Nat)
    (d : ProfileData) (st : String) (e : Option String) (now : Nat) :
    (db.snapshots.any (snapshotMatches s p) = false →
      ∀ r ∈ (save_profile_snapshot db s p d st e now).snapshots,
        snapshotMatches s p r = true → r.total_value = 0) ∧
    (db.snapshots.any (snapshotMatches s p) = true →
      (save_profile_snapshot db s p d st e now).snapshots.map SnapshotRow.total_value
        = db.snapshots.map SnapshotRow.total_value) := by
  constructor
  · intro hany r hr hmr
    unfold save_profile_snapshot at hr
    simp only [hany, Bool.false_eq_true, if_neg, not_false_eq_true,
      List.mem_append, List.mem_singleton] at hr
    rcases hr with hr | hr
    · exact absurd hmr (by simpa using List.any_eq_false.mp hany r hr)
    · subst hr; rfl
  · intro hany
    unfold save_profile_snapshot
    simp only [hany, if_pos, List.map_map]
    apply List.map_congr_left
    intro a _
    by_cases hma : snapshotMatches s p a = true
    · simp [hma, applySnapshotUpdate_total_value]
    · simp [hma]

/-- A database holding one snapshot row with a nonzero `total_value`, as if
written by hand, used to witness the conflict branch of C10. -/
def exDBTotal : DB :=
  ⟨[], [], [⟨1, 1, 1, 5, 10, 100, 50, 77, 3, "success", none⟩], 1, 1, 2⟩

/-- Witness for C10: the insert branch writes `total_value = 0` at the
empty database, and the conflict branch leaves the stored 77 unchanged. -/
theorem save_profile_snapshot_total_value_frame_witness :
    (emptyDB.snapshots.any (snapshotMatches 1 1) = false ∧
      (⟨1, 1, 1, 6, 12, 0, 0, 0, 8, "success", none⟩ : SnapshotRow) ∈
        (save_profile_snapshot emptyDB 1 1 exPayload2 "success" none 4).snapshots ∧
      (⟨1, 1, 1, 6, 12, 0, 0, 0, 8, "success", none⟩ : SnapshotRow).total_value = 0) ∧
    (exDBTotal.snapshots.any (snapshotMatches 1 1) = true ∧
      (save_profile_snapshot exDBTotal 1 1 exPayload2 "success" none 4).snapshots.map
          SnapshotRow.total_value
        = exDBTotal.snapshots.map SnapshotRow.total_value) :=
  ⟨⟨rfl, by
      constructor
      · show _ ∈ (save_profile_snapshot emptyDB 1 1 exPayload2 "success" none 4).snapshots
        rw [show (save_profile_snapshot emptyDB 1 1 exPayload2 "success" none 4).snapshots
            = [⟨1, 1, 1, 6, 12, 0, 0, 0, 8, "success", none⟩] from rfl]
        exact List.mem_singleton.mpr rfl
      · exact (save_profile_snapshot_total_value_frame emptyDB 1 1 exPayload2
          "success" none 4).1 rfl _ (by
            rw [show (save_profile_snapshot emptyDB 1 1 exPayload2 "success" none 4).snapshots
                = [⟨1, 1, 1, 6, 12, 0, 0, 0, 8, "success", none⟩] from rfl]
            exact List.mem_singleton.mpr rfl) rfl⟩,
    rfl, (save_profile_snapshot_total_value_frame exDBTotal 1 1 exPayload2
      "success" none 4).2 rfl⟩

/-! ### C3: status derivation of `update_session_stats` -/

/-- The row-level effect of `update_session_stats`: every session row with
the targeted id gets the given counts and the CASE-derived status; all
other rows are unchanged. -/
theorem update_session_stats_row_spec (db : DB) (sid : Nat)
    (total succ failed : Int) :
    ∀ row ∈ (update_session_stats db sid total succ failed).sessions,
      row.id = sid →
        row.status = (if succ > 0 then "success" else "failed") ∧
        row.total_profiles = total ∧
        row.successful_profiles = succ ∧
        row.failed_profiles = failed := by
  intro row hrow hid
  simp only [update_session_stats, List.mem_map] at hrow
  obtain ⟨a, _, heq⟩ := hrow
  by_cases h : a.id = sid
  · rw [if_pos h] at heq
    subst heq
    exact ⟨rfl, rfl, rfl, rfl⟩
  · rw [if_neg h] at heq
    subst heq
    exact absurd hid h

/-- C3: for every session id and counts triple, `update_session_stats`
sets the session's status to "success" if and only if `successful > 0`,
and to "failed" otherwise, regardless of `failed`, and writes
`total_profiles`, `successful_profiles` and `failed_profiles` to the given
values. -/
theorem update_session_stats_status (db : DB) (sid : Nat)
    (total succ failed : Int) :
    ∀ row ∈ (update_session_stats db sid total succ failed).sessions,
      row.id = sid →
        (row.status = "success" ↔ succ > 0) ∧
        (row.status = "failed" ↔ ¬ succ > 0) ∧
        row.total_profiles = total ∧
        row.successful_profiles = succ ∧
        row.failed_profiles = failed := by
  intro row hrow hid
  obtain ⟨hst, h1, h2, h3⟩ := update_session_stats_row_spec db sid total succ failed row hrow hid
  refine ⟨?_, ?_, h1, h2, h3⟩
  · by_cases hpos : succ > 0
    · rw [hst, if_pos hpos]
      exact Iff.intro (fun _ => hpos) (fun _ => rfl)
    · rw [hst, if_neg hpos]
      constructor
      · intro hcontr
        exact absurd hcontr (by decide)
      · intro hcontr
        exact absurd hcontr hpos
  · by_cases hpos : succ > 0
    · rw [hst, if_pos hpos]
      constructor
      · intro hcontr
        exact absurd hcontr (by decide)
      · intro hcontr
        exact absurd hpos hcontr
    · simp [hst, hpos]

/-- The concrete finalized session row used by the C3 witness: created at
time 5 and finalized with counts (6, 4, 2). -/
def exSessionRow3 : SessionRow := ⟨1, 5, "5", "5", 6, 4, 2, "success"⟩

/-- Witness for C3 at a one-session database, finalized with 4 successful
out of 6. -/
theorem update_session_stats_status_witness :
    (exSessionRow3 ∈
        (update_session_stats (create_parse_session emptyDB 5).1 1 6 4 2).sessions ∧
      exSessionRow3.id = 1) ∧
    ((exSessionRow3.status = "success" ↔ (4:Int) > 0) ∧
      (exSessionRow3.status = "failed" ↔ ¬ (4:Int) > 0) ∧
      exSessionRow3.total_profiles = 6 ∧
      exSessionRow3.successful_profiles = 4 ∧
      exSessionRow3.failed_profiles = 2) :=
  ⟨⟨by decide, rfl⟩,
    update_session_stats_status (create_parse_session emptyDB 5).1 1 6 4 2
      exSessionRow3 (by decide) rfl⟩

/-! ### C4: create-or-update of `get_or_create_profile` -/

/-- The in-place profile update leaves `steam_id` untouched. -/
theorem update_ite_steam_id (d : ProfileData) (now i : Nat) (q : ProfileRow) :
    (if q.id = i then applyProfileUpdate d now q else q).steam_id = q.steam_id := by
  split <;> rfl

/-- The in-place profile update leaves `id` untouched. -/
theorem update_ite_id (d : ProfileData) (now i : Nat) (q : ProfileRow) :
    (if q.id = i then applyProfileUpdate d now q else q).id = q.id := by
  split <;> rfl

/-- Looking a profile up by `steam_id` commutes with the in-place update,
since the update never touches `steam_id`. -/
theorem find?_steam_id_map_update (l : List ProfileRow) (sid : String)
    (d : ProfileData) (now i : Nat) :
    (l.map fun q => if q.id = i then applyProfileUpdate d now q else q).find?
        (fun p => p.steam_id = sid)
      = (l.find? (fun p => p.steam_id = sid)).map
          fun q => if q.id = i then applyProfileUpdate d now q else q := by
  rw [List.find?_map]
  congr 2
  funext q
  simp only [Function.comp_apply]
  by_cases h : q.id = i <;> simp [h, applyProfileUpdate]

/-- After `get_or_create_profile`, the returned id is `some i` for an `i`
such that a lookup by the same `steam_id` finds a row with id `i`, and
every row carrying id `i` carries exactly that `steam_id`. -/
theorem get_or_create_profile_resolved (db : DB) (sid : String)
    (d : ProfileData) (t : Nat)
    (hids : (db.profiles.map ProfileRow.id).Nodup)
    (hfresh : ∀ p ∈ db.profiles, p.id < db.next_profile_id) :
    ∃ i q, (get_or_create_profile db sid d t).2 = some i ∧
      (get_or_create_profile db sid d t).1.profiles.find?
          (fun p => p.steam_id = sid) = some q ∧
      q.id = i ∧
      ∀ p' ∈ (get_or_create_profile db sid d t).1.profiles,
        p'.id = i → p'.steam_id = sid := by
  cases hf : db.profiles.find? (fun p => p.steam_id = sid) with
  | some p0 =>
    have hp0mem : p0 ∈ db.profiles := List.mem_of_find?_eq_some hf
    have hp0sid : p0.steam_id = sid := by simpa using List.find?_some hf
    refine ⟨p0.id, applyProfileUpdate d t p0, ?_, ?_, rfl, ?_⟩
    · simp [get_or_create_profile, hf]
    · simp only [get_or_create_profile, hf]
      rw [find?_steam_id_map_update, hf]
      simp
    · intro p' hp' hpid
      simp only [get_or_create_profile, hf, List.mem_map] at hp'
      obtain ⟨a, ha, heq⟩ := hp'
      have haid : a.id = p0.id := by
        rw [← hpid, ← heq, update_ite_id]
      have : a = p0 := List.inj_on_of_nodup_map hids ha hp0mem haid
      subst this
      rw [← heq, update_ite_steam_id]
      exact hp0sid
  | none =>
    refine ⟨db.next_profile_id,
      ⟨db.next_profile_id, sid, d.nickname, d.country, d.avatar, d.steam_level,
        d.profile_url, t, t⟩, ?_, ?_, rfl, ?_⟩
    · simp [get_or_create_profile, hf]
    · simp only [get_or_create_profile, hf]
      rw [List.find?_append, hf]
      simp
    · intro p' hp' hpid
      simp only [get_or_create_profile, hf, List.mem_append,
        List.mem_singleton] at hp'
      rcases hp' with hp' | hp'
      · exact absurd hpid (Nat.ne_of_lt (hfresh p' hp'))
      · subst hp'
        rfl

/-- C4: calling `get_or_create_profile` twice with the same `steam_id` and
different attribute payloads never creates a second profile row: the second
call returns the same profile id as the first, overwrites the mutable
attributes (`nickname`, `country`, `avatar_url`, `steam_level`,
`profile_url`) with the second payload, and the resolved row's `steam_id`
stays the looked-up identifier. -/
theorem get_or_create_profile_no_duplicate (db : DB) (sid : String)
    (d1 d2 : ProfileData) (t1 t2 : Nat)
    (hids : (db.profiles.map ProfileRow.id).Nodup)
    (hfresh : ∀ p ∈ db.profiles, p.id < db.next_profile_id) :
    (get_or_create_profile (get_or_create_profile db sid d1 t1).1 sid d2 t2).2
        = (get_or_create_profile db sid d1 t1).2 ∧
    (get_or_create_profile (get_or_create_profile db sid d1 t1).1 sid d2 t2).1.profiles.length
        = (get_or_create_profile db sid d1 t1).1.profiles.length ∧
    ∃ i, (get_or_create_profile db sid d1 t1).2 = some i ∧
      ∀ p ∈ (get_or_create_profile (get_or_create_profile db sid d1 t1).1 sid d2 t2).1.profiles,
        p.id = i →
          p.steam_id = sid ∧ p.nickname = d2.nickname ∧ p.country = d2.country ∧
          p.avatar_url = d2.avatar ∧ p.steam_level = d2.steam_level ∧
          p.profile_url = d2.profile_url := by
  obtain ⟨i, q, hr2, hfind, hqid, hsid⟩ :=
    get_or_create_profile_resolved db sid d1 t1 hids hfresh
  set db1 := (get_or_create_profile db sid d1 t1).1 with hdb1
  refine ⟨?_, ?_, i, hr2, ?_⟩
  · rw [hr2]
    simp [get_or_create_profile, hfind, hqid]
  · simp [get_or_create_profile, hfind]
  · intro p hp hpid
    simp only [get_or_create_profile, hfind, List.mem_map] at hp
    obtain ⟨a, ha, heq⟩ := hp
    have haid : a.id = i := by
      rw [← hpid, ← heq, update_ite_id]
    have haq : a.id = q.id := haid.trans hqid.symm
    rw [if_pos haq] at heq
    have hasid : a.steam_id = sid := hsid a ha haid
    subst heq
    exact ⟨hasid, rfl, rfl, rfl, rfl, rfl⟩

/-- Witness for C4 at the empty database: resolving a fresh identifier
twice with the two concrete payloads. -/
theorem get_or_create_profile_no_duplicate_witness :
    ((emptyDB.profiles.map ProfileRow.id).Nodup ∧
      ∀ p ∈ emptyDB.profiles, p.id < emptyDB.next_profile_id) ∧
    ((get_or_create_profile (get_or_create_profile emptyDB "sid76" exPayload1 3).1
          "sid76" exPayload2 4).2
        = (get_or_create_profile emptyDB "sid76" exPayload1 3).2 ∧
      (get_or_create_profile (get_or_create_profile emptyDB "sid76" exPayload1 3).1
          "sid76" exPayload2 4).1.profiles.length
        = (get_or_create_profile emptyDB "sid76" exPayload1 3).1.profiles.length ∧
      ∃ i, (get_or_create_profile emptyDB "sid76" exPayload1 3).2 = some i ∧
        ∀ p ∈ (get_or_create_profile (get_or_create_profile emptyDB "sid76" exPayload1 3).1
            "sid76" exPayload2 4).1.profiles,
          p.id = i →
            p.steam_id = "sid76" ∧ p.nickname = exPayload2.nickname ∧
            p.country = exPayload2.country ∧ p.avatar_url = exPayload2.avatar ∧
            p.steam_level = exPayload2.steam_level ∧
            p.profile_url = exPayload2.profile_url) :=
  ⟨⟨List.nodup_nil, by simp [emptyDB]⟩,
    get_or_create_profile_no_duplicate emptyDB "sid76" exPayload1 exPayload2 3 4
      List.nodup_nil (by simp [emptyDB])⟩

/-! ### C5: zero-default aggregation for snapshot-less sessions -/

/-- A `session_summary` row whose session id has no snapshots reports the
three zero defaults. -/
theorem summarize_of_no_snapshots (db : DB) (s' : SessionRow)
    (hempty : sessionSnapshots db s'.id = []) :
    (summarize db s').total_games = 0 ∧ (summarize db s').avg_level = 0 ∧
      (summarize db s').grand_total_value = 0 := by
  simp [summarize, hempty]

/-- C5: every session with zero snapshot rows is reported by the
`session_summary` projection — both through `get_session_by_id`, which
returns a row rather than an error or null aggregates, and through any
`get_sessions` listing — with `total_games = 0`, `avg_level = 0` and
`grand_total_value = 0`. -/
theorem session_summary_zero_defaults (db : DB) (s : SessionRow) (limit : Nat)
    (hs : s ∈ db.sessions)
    (hempty : ∀ r ∈ db.snapshots, r.session_id ≠ s.id) :
    (∃ row, get_session_by_id db s.id = some row ∧
        row.total_games = 0 ∧ row.avg_level = 0 ∧ row.grand_total_value = 0) ∧
    ∀ row ∈ get_sessions db limit, row.session_id = s.id →
      row.total_games = 0 ∧ row.avg_level = 0 ∧ row.grand_total_value = 0 := by
  have hrow_zero : ∀ row ∈ session_summary db, row.session_id = s.id →
      row.total_games = 0 ∧ row.avg_level = 0 ∧ row.grand_total_value = 0 := by
    intro row hrow hid
    simp only [session_summary, List.mem_map] at hrow
    obtain ⟨s', _, heq⟩ := hrow
    have hsid : s'.id = s.id := by
      rw [← hid, ← heq]
      rfl
    have hnil : sessionSnapshots db s'.id = [] := by
      rw [hsid]
      rw [sessionSnapshots, List.filter_eq_nil_iff]
      intro r hr
      simpa using hempty r hr
    rw [← heq]
    exact summarize_of_no_snapshots db s' hnil
  constructor
  · have hsome : ((session_summary db).find? (fun r => r.session_id = s.id)).isSome := by
      rw [List.find?_isSome]
      exact ⟨summarize db s, List.mem_map_of_mem (summarize db) hs, by simp [summarize]⟩
    obtain ⟨row, hrow⟩ := Option.isSome_iff_exists.mp hsome
    have hmem : row ∈ session_summary db := List.mem_of_find?_eq_some hrow
    have hid : row.session_id = s.id := by simpa using List.find?_some hrow
    exact ⟨row, hrow, hrow_zero row hmem hid⟩
  · intro row hrow hid
    have hmem : row ∈ session_summary db := by
      have h1 : row ∈ (session_summary db).mergeSort
          (fun a b => decide (b.parse_time ≤ a.parse_time)) :=
        List.take_subset limit _ hrow
      exact List.mem_mergeSort.mp h1
    exact hrow_zero row hmem hid

/-- Witness for C5 at a one-session, zero-snapshot database. -/
theorem session_summary_zero_defaults_witness :
    (exSessionRow3 ∈ (update_session_stats (create_parse_session emptyDB 5).1 1 6 4 2).sessions ∧
      ∀ r ∈ (update_session_stats (create_parse_session emptyDB 5).1 1 6 4 2).snapshots,
        r.session_id ≠ exSessionRow3.id) ∧
    ((∃ row, get_session_by_id
          (update_session_stats (create_parse_session emptyDB 5).1 1 6 4 2)
          exSessionRow3.id = some row ∧
        row.total_games = 0 ∧ row.avg_level = 0 ∧ row.grand_total_value = 0) ∧
      ∀ row ∈ get_sessions
          (update_session_stats (create_parse_session emptyDB 5).1 1 6 4 2) 10,
        row.session_id = exSessionRow3.id →
          row.total_games = 0 ∧ row.avg_level = 0 ∧ row.grand_total_value = 0) :=
  ⟨⟨by decide, by decide⟩,
    session_summary_zero_defaults
      (update_session_stats (create_parse_session emptyDB 5).1 1 6 4 2)
      exSessionRow3 10 (by decide) (by decide)⟩

/-! ### C8: `get_cursor` is transactional with guaranteed release -/

/-- C8: every store operation run through `get_cursor` is atomic with
guaranteed resource release: on a successful body the transaction is
committed (the durable state is the body's result); on any failure the
transaction is rolled back (the durable state is unchanged) and the
exception is re-raised to the caller; and whenever the connection or the
cursor was opened, it is closed on exit. -/
theorem get_cursor_transactional {α : Type} (connect_fails : Bool) (db : DB)
    (body : DB → ExecResult (DB × α)) :
    ((get_cursor connect_fails db body).conn_opened = true →
      (get_cursor connect_fails db body).conn_closed = true) ∧
    ((get_cursor connect_fails db body).cursor_opened = true →
      (get_cursor connect_fails db body).cursor_closed = true) ∧
    (∀ db' a, connect_fails = false → body db = .ok (db', a) →
      (get_cursor connect_fails db body).result = .ok a ∧
      (get_cursor connect_fails db body).durable = db') ∧
    (∀ e, connect_fails = false → body db = .err e →
      (get_cursor connect_fails db body).result = .err e ∧
      (get_cursor connect_fails db body).durable = db) := by
  cases connect_fails with
  | true =>
    refine ⟨?_, ?_, ?_, ?_⟩
    · intro h; exact absurd h (by simp [get_cursor, get_connection])
    · intro h; exact absurd h (by simp [get_cursor, get_connection])
    · intro db' a h; exact absurd h (by simp)
    · intro e h; exact absurd h (by simp)
  | false =>
    refine ⟨fun _ => rfl, fun _ => rfl, ?_, ?_⟩
    · intro db' a _ hbody
      constructor <;> simp [get_cursor, get_connection, hbody]
    · intro e _ hbody
      constructor <;> simp [get_cursor, get_connection, hbody]

/-- A concrete transaction body that succeeds, leaving a session behind. -/
def exBodyOk : DB → ExecResult (DB × Nat) :=
  fun d => .ok ((create_parse_session d 5).1, 42)

/-- A concrete transaction body that raises after mutating its
in-transaction state. -/
def exBodyErr : DB → ExecResult (DB × Nat) :=
  fun _ => .err "deadlock"

/-- Witness for C8: a committing run publishes the body's state and a
failing run leaves the durable state untouched, both with the connection
and cursor closed. -/
theorem get_cursor_transactional_witness :
    ((get_cursor false emptyDB exBodyOk).result = .ok 42 ∧
      (get_cursor false emptyDB exBodyOk).durable = (create_parse_session emptyDB 5).1) ∧
    ((get_cursor false emptyDB exBodyErr).result = .err "deadlock" ∧
      (get_cursor false emptyDB exBodyErr).durable = emptyDB) ∧
    (get_cursor false emptyDB exBodyOk).conn_closed = true ∧
    (get_cursor false emptyDB exBodyErr).cursor_closed = true :=
  ⟨(get_cursor_transactional false emptyDB exBodyOk).2.2.1
      (create_parse_session emptyDB 5).1 42 rfl rfl,
    (get_cursor_transactional false emptyDB exBodyErr).2.2.2 "deadlock" rfl rfl,
    (get_cursor_transactional false emptyDB exBodyOk).1 rfl,
    (get_cursor_transactional false emptyDB exBodyErr).2.1 rfl⟩

/-! ### Frame lemmas for the run model of `parse_all_accounts` -/

theorem get_or_create_profile_sessions (db : DB) (sid : String) (d : ProfileData)
    (now : Nat) : (get_or_create_profile db sid d now).1.sessions = db.sessions := by
  unfold get_or_create_profile
  cases db.profiles.find? (fun p => p.steam_id = sid) <;> rfl

theorem get_or_create_profile_some (db : DB) (sid : String) (d : ProfileData)
    (now : Nat) : (get_or_create_profile db sid d now).2.isSome = true := by
  unfold get_or_create_profile
  cases db.profiles.find? (fun p => p.steam_id = sid) <;> rfl

theorem save_profile_snapshot_sessions (db : DB) (s p : Nat) (d : ProfileData)
    (st : String) (e : Option String) (now : Nat) :
    (save_profile_snapshot db s p d st e now).sessions = db.sessions := by
  unfold save_profile_snapshot
  split <;> rfl

/-- When the per-entry loop completes without a raised storage exception,
each roster entry contributed to exactly one of the two accumulators, and
the loop touched no session row. -/
theorem parseLoop_ok_spec (sid now : Nat) :
    ∀ (entries : List RosterEntry) (db : DB) (succ : List ProfileData)
      (failed : List (String × String)) (db' : DB) (succ' : List ProfileData)
      (failed' : List (String × String)),
      parseLoop sid now entries db succ failed = (db', .ok (succ', failed')) →
      succ'.length + failed'.length = succ.length + failed.length + entries.length ∧
      db'.sessions = db.sessions := by
  intro entries
  induction entries with
  | nil =>
    intro db succ failed db' succ' failed' h
    simp only [parseLoop, Prod.mk.injEq, ExecResult.ok.injEq] at h
    obtain ⟨h1, h2, h3⟩ := h
    subst h1
    subst h2
    subst h3
    simp
  | cons e rest ih =>
    intro db succ failed db' succ' failed' h
    rcases e with ⟨acct, outcome, oracle⟩
    cases outcome with
    | fetchFailed err =>
      simp only [parseLoop] at h
      obtain ⟨h1, h2⟩ := ih db succ (failed ++ [(acct, err)]) db' succ' failed' h
      refine ⟨?_, h2⟩
      simp only [List.length_append, List.length_cons, List.length_nil,
        List.length_singleton] at h1 ⊢
      omega
    | fetched sid2 d =>
      cases oracle with
      | registryRaises =>
        simp only [parseLoop, Prod.mk.injEq] at h
        exact absurd h.2 (by simp)
      | registryNone =>
        simp only [parseLoop] at h
        obtain ⟨h1, h2⟩ := ih db succ (failed ++ [(acct, dbSaveError)]) db' succ' failed' h
        refine ⟨?_, h2⟩
        simp only [List.length_append, List.length_cons, List.length_nil,
          List.length_singleton] at h1 ⊢
        omega
      | snapshotRaises =>
        simp only [parseLoop, Prod.mk.injEq] at h
        exact absurd h.2 (by simp)
      | ok =>
        rcases hg : get_or_create_profile db sid2 d now with ⟨db1, opt⟩
        cases opt with
        | none =>
          have hs := get_or_create_profile_some db sid2 d now
          rw [hg] at hs
          simp at hs
        | some pid =>
          simp only [parseLoop, hg] at h
          obtain ⟨h1, h2⟩ := ih (save_profile_snapshot db1 sid pid d "success" none now)
            (succ ++ [d]) failed db' succ' failed' h
          have hsess1 : db1.sessions = db.sessions := by
            have hx := get_or_create_profile_sessions db sid2 d now
            rw [hg] at hx
            exact hx
          refine ⟨?_, ?_⟩
          · simp only [List.length_append, List.length_cons, List.length_nil,
              List.length_singleton] at h1 ⊢
            omega
          · rw [h2, save_profile_snapshot_sessions, hsess1]

/-- Unfolding of `parse_all_accounts` through the projections of
`create_parse_session`. -/
theorem parse_all_accounts_eq (db : DB) (now : Nat) (entries : List RosterEntry) :
    parse_all_accounts db now entries =
      match parseLoop (create_parse_session db now).2 now entries
          (create_parse_session db now).1 [] [] with
      | (db2, .ok (succ, failed)) =>
          (update_session_stats db2 (create_parse_session db now).2
            (entries.length : Int) (succ.length : Int) (failed.length : Int),
           .ok ((create_parse_session db now).2, succ, failed))
      | (db2, .err e) => (db2, .err e) := rfl

/-- When `parse_all_accounts` reaches its finalize step (returns ok), the
two result lists partition the roster and the finalized session row holds
`total_profiles` equal to the roster length together with the two list
lengths. -/
theorem parse_all_accounts_ok_spec (db : DB) (now : Nat)
    (entries : List RosterEntry) (db' : DB) (sid : Nat)
    (succ : List ProfileData) (failed : List (String × String))
    (h : parse_all_accounts db now entries = (db', .ok (sid, succ, failed))) :
    succ.length + failed.length = entries.length ∧
    (∃ s ∈ db'.sessions, s.id = sid) ∧
    ∀ s ∈ db'.sessions, s.id = sid →
      s.total_profiles = (entries.length : Int) ∧
      s.successful_profiles = (succ.length : Int) ∧
      s.failed_profiles = (failed.length : Int) := by
  rw [parse_all_accounts_eq] at h
  rcases hl : parseLoop (create_parse_session db now).2 now entries
      (create_parse_session db now).1 [] [] with ⟨db2, res⟩
  rw [hl] at h
  cases res with
  | err e => simp at h
  | ok pr =>
    rcases pr with ⟨succ0, failed0⟩
    simp only [Prod.mk.injEq, ExecResult.ok.injEq] at h
    obtain ⟨hdb, hsid, hsucc, hfail⟩ := h
    subst hdb
    subst hsid
    subst hsucc
    subst hfail
    obtain ⟨hlen, hsess⟩ := parseLoop_ok_spec _ now entries _ [] [] db2 succ0 failed0 hl
    have hnew : (⟨db.next_session_id, now, toString now, toString now, 0, 0, 0,
        "pending"⟩ : SessionRow) ∈ db2.sessions := by
      rw [hsess]
      exact List.mem_append_right _ (List.mem_singleton.mpr rfl)
    refine ⟨by simpa using hlen, ?_, ?_⟩
    · refine ⟨⟨db.next_session_id, now, toString now, toString now,
          (entries.length : Int), (succ0.length : Int), (failed0.length : Int),
          if (succ0.length : Int) > 0 then "success" else "failed"⟩, ?_, rfl⟩
      unfold update_session_stats
      refine List.mem_map.mpr ⟨⟨db.next_session_id, now, toString now, toString now,
          0, 0, 0, "pending"⟩, hnew, ?_⟩
      have hc : (⟨db.next_session_id, now, toString now, toString now,
          0, 0, 0, "pending"⟩ : SessionRow).id = (create_parse_session db now).2 := rfl
      rw [if_pos hc]
    · intro s hs hid
      obtain ⟨_, h1, h2, h3⟩ :=
        update_session_stats_row_spec db2 (create_parse_session db now).2
          (entries.length : Int) (succ0.length : Int) (failed0.length : Int) s hs hid
      exact ⟨h1, h2, h3⟩

/-! ### C9: every roster entry counted exactly once at finalize -/

/-- C9: whenever `parse_all_accounts` reaches its finalize step, it calls
`update_session_stats` with `total` equal to the roster length and with
`successful + failed = total`: every roster entry lands in exactly one of
the two lists and the finalized session row records exactly those
counts. -/
theorem parse_all_accounts_counts (db : DB) (now : Nat)
    (entries : List RosterEntry) (db' : DB) (sid : Nat)
    (succ : List ProfileData) (failed : List (String × String))
    (h : parse_all_accounts db now entries = (db', .ok (sid, succ, failed))) :
    succ.length + failed.length = entries.length ∧
    (∃ s ∈ db'.sessions, s.id = sid) ∧
    ∀ s ∈ db'.sessions, s.id = sid →
      s.total_profiles = (entries.length : Int) ∧
      s.successful_profiles = (succ.length : Int) ∧
      s.failed_profiles = (failed.length : Int) :=
  parse_all_accounts_ok_spec db now entries db' sid succ failed h

/-- A roster entry whose external fetch failed. -/
def exEntry9a : RosterEntry := ⟨"acctA", .fetchFailed "timeout", .ok⟩

/-- A roster entry fully processed with no storage failure. -/
def exEntry9b : RosterEntry := ⟨"acctB", .fetched "SB" ProfileData.empty, .ok⟩

/-- The database left by the concrete two-entry run of the C9 witness. -/
def exDB9 : DB := (parse_all_accounts emptyDB 0 [exEntry9a, exEntry9b]).1

/-- Witness for C9 at a concrete run with one fetch failure and one
success. -/
theorem parse_all_accounts_counts_witness :
    parse_all_accounts emptyDB 0 [exEntry9a, exEntry9b]
        = (exDB9, .ok (1, [ProfileData.empty], [("acctA", "timeout")])) ∧
    ([ProfileData.empty].length + [("acctA", "timeout")].length
        = [exEntry9a, exEntry9b].length ∧
      (∃ s ∈ exDB9.sessions, s.id = 1) ∧
      ∀ s ∈ exDB9.sessions, s.id = 1 →
        s.total_profiles = ([exEntry9a, exEntry9b].length : Int) ∧
        s.successful_profiles = ([ProfileData.empty].length : Int) ∧
        s.failed_profiles = ([("acctA", "timeout")].length : Int)) :=
  ⟨rfl, parse_all_accounts_counts emptyDB 0 [exEntry9a, exEntry9b] exDB9 1
    [ProfileData.empty] [("acctA", "timeout")] rfl⟩

/-! ### C7: per-entry failure handling in `parse_all_accounts` -/

/-- A roster entry whose processing raises a storage exception out of one
of the two store calls. -/
def entryRaises (e : RosterEntry) : Bool :=
  e.oracle = StoreOracle.registryRaises || e.oracle = StoreOracle.snapshotRaises

/-- A roster entry that is recorded in `failed_profiles` without raising:
its fetch failed, or the profile resolution returned no id. -/
def entryLocalFailure (e : RosterEntry) : Bool :=
  match e.outcome with
  | .fetchFailed _ => true
  | .fetched _ _ => e.oracle = StoreOracle.registryNone

/-- When no entry raises a storage exception, the loop runs to completion:
every fetch failure and every id-less resolution is appended to
`failed_profiles`, every fully processed entry to `successful_profiles`,
and no session row is touched. -/
theorem parseLoop_no_raise (sid now : Nat) :
    ∀ (entries : List RosterEntry) (db : DB) (succ : List ProfileData)
      (failed : List (String × String)),
      (∀ e ∈ entries, entryRaises e = false) →
      ∃ db' succ' failed',
        parseLoop sid now entries db succ failed = (db', .ok (succ', failed')) ∧
        failed'.length = failed.length + (entries.filter entryLocalFailure).length ∧
        succ'.length = succ.length +
          (entries.filter fun e => ! entryLocalFailure e).length ∧
        db'.sessions = db.sessions := by
  intro entries
  induction entries with
  | nil =>
    intro db succ failed _
    exact ⟨db, succ, failed, rfl, by simp, by simp, rfl⟩
  | cons e rest ih =>
    intro db succ failed h
    have hrest : ∀ x ∈ rest, entryRaises x = false :=
      fun x hx => h x (List.mem_cons_of_mem e hx)
    have he : entryRaises e = false := h e (List.mem_cons_self e rest)
    rcases e with ⟨acct, outcome, oracle⟩
    cases outcome with
    | fetchFailed err =>
      obtain ⟨db', succ', failed', hloop, hf, hs, hsess⟩ :=
        ih db succ (failed ++ [(acct, err)]) hrest
      refine ⟨db', succ', failed', ?_, ?_, ?_, hsess⟩
      · simpa only [parseLoop] using hloop
      · rw [hf, show List.filter entryLocalFailure
            (⟨acct, .fetchFailed err, oracle⟩ :: rest)
            = ⟨acct, .fetchFailed err, oracle⟩ :: List.filter entryLocalFailure rest
            from rfl]
        simp only [List.length_append, List.length_singleton, List.length_cons,
          List.length_nil]
        omega
      · rw [hs, show List.filter (fun e => ! entryLocalFailure e)
            (⟨acct, .fetchFailed err, oracle⟩ :: rest)
            = List.filter (fun e => ! entryLocalFailure e) rest from rfl]
    | fetched sid2 d =>
      cases oracle with
      | registryRaises => exact absurd he (by simp [entryRaises])
      | snapshotRaises => exact absurd he (by simp [entryRaises])
      | registryNone =>
        obtain ⟨db', succ', failed', hloop, hf, hs, hsess⟩ :=
          ih db succ (failed ++ [(acct, dbSaveError)]) hrest
        refine ⟨db', succ', failed', ?_, ?_, ?_, hsess⟩
        · simpa only [parseLoop] using hloop
        · rw [hf, show List.filter entryLocalFailure
              (⟨acct, .fetched sid2 d, .registryNone⟩ :: rest)
              = ⟨acct, .fetched sid2 d, .registryNone⟩ ::
                  List.filter entryLocalFailure rest from rfl]
          simp only [List.length_append, List.length_singleton, List.length_cons,
            List.length_nil]
          omega
        · rw [hs, show List.filter (fun e => ! entryLocalFailure e)
              (⟨acct, .fetched sid2 d, .registryNone⟩ :: rest)
              = List.filter (fun e => ! entryLocalFailure e) rest from rfl]
      | ok =>
        rcases hg : get_or_create_profile db sid2 d now with ⟨db1, opt⟩
        cases opt with
        | none =>
          have hsome := get_or_create_profile_some db sid2 d now
          rw [hg] at hsome
          simp at hsome
        | some pid =>
          obtain ⟨db', succ', failed', hloop, hf, hs, hsess⟩ :=
            ih (save_profile_snapshot db1 sid pid d "success" none now)
              (succ ++ [d]) failed hrest
          have hsess1 : db1.sessions = db.sessions := by
            have hx := get_or_create_profile_sessions db sid2 d now
            rw [hg] at hx
            exact hx
          refine ⟨db', succ', failed', ?_, ?_, ?_, ?_⟩
          · rw [show parseLoop sid now (⟨acct, .fetched sid2 d, .ok⟩ :: rest) db succ failed
                = match get_or_create_profile db sid2 d now with
                  | (db1, some pid) =>
                      parseLoop sid now rest
                        (save_profile_snapshot db1 sid pid d "success" none now)
                        (succ ++ [d]) failed
                  | (db1, none) =>
                      parseLoop sid now rest db1 succ (failed ++ [(acct, dbSaveError)])
                from rfl, hg]
            exact hloop
          · rw [hf, show List.filter entryLocalFailure
                (⟨acct, .fetched sid2 d, .ok⟩ :: rest)
                = List.filter entryLocalFailure rest from rfl]
          · rw [hs, show List.filter (fun e => ! entryLocalFailure e)
                (⟨acct, .fetched sid2 d, .ok⟩ :: rest)
                = ⟨acct, .fetched sid2 d, .ok⟩ ::
                    List.filter (fun e => ! entryLocalFailure e) rest from rfl]
            simp only [List.length_append, List.length_singleton, List.length_cons,
              List.length_nil]
            omega
          · rw [hsess, save_profile_snapshot_sessions, hsess1]

/-- C7 amended: in `parse_all_accounts`, an entity-fetch failure, and a
profile resolution that returns no id, are caught, recorded in the failed
count, and processing continues to the next roster entry, with
`update_session_stats` still called at the end; a storage exception raised
by `get_or_create_profile` or `save_profile_snapshot`, however, is not
caught and aborts the run (see the counterexample).  Formally: when no
entry raises, the run finalizes with every local failure counted. -/
theorem parse_all_accounts_continues_after_local_failures (db : DB) (now : Nat)
    (entries : List RosterEntry)
    (h : ∀ e ∈ entries, entryRaises e = false) :
    ∃ db' sid succ failed,
      parse_all_accounts db now entries = (db', .ok (sid, succ, failed)) ∧
      failed.length = (entries.filter entryLocalFailure).length ∧
      succ.length + failed.length = entries.length ∧
      ∀ s ∈ db'.sessions, s.id = sid →
        s.total_profiles = (entries.length : Int) ∧
        s.successful_profiles = (succ.length : Int) ∧
        s.failed_profiles = (failed.length : Int) := by
  obtain ⟨db2, succ', failed', hloop, hf, _, _⟩ :=
    parseLoop_no_raise (create_parse_session db now).2 now entries
      (create_parse_session db now).1 [] [] h
  have hrun : parse_all_accounts db now entries =
      (update_session_stats db2 (create_parse_session db now).2
        (entries.length : Int) (succ'.length : Int) (failed'.length : Int),
       .ok ((create_parse_session db now).2, succ', failed')) := by
    rw [parse_all_accounts_eq, hloop]
  obtain ⟨hlen, _, hall⟩ :=
    parse_all_accounts_ok_spec db now entries _ _ succ' failed' hrun
  exact ⟨_, _, succ', failed', hrun, by simpa using hf, hlen, hall⟩

/-- A roster entry whose registry call raises a storage exception. -/
def exEntryRaise : RosterEntry :=
  ⟨"acctA", .fetched "SA" ProfileData.empty, .registryRaises⟩

/-- A healthy roster entry scheduled after the raising one. -/
def exEntryAfter : RosterEntry :=
  ⟨"acctB", .fetched "SB" ProfileData.empty, .ok⟩

/-- C7 counterexample: a storage exception raised while resolving the
first entry is not caught — the run returns the raised exception instead
of continuing to the second entry, and `update_session_stats` is never
called: the session row is still "pending" with zero counts. -/
theorem parse_all_accounts_aborts_on_storage_raise :
    (parse_all_accounts emptyDB 0 [exEntryRaise, exEntryAfter]).2
        = .err "StorageUnavailable" ∧
    ∀ s ∈ (parse_all_accounts emptyDB 0 [exEntryRaise, exEntryAfter]).1.sessions,
      s.status = "pending" ∧ s.total_profiles = 0 ∧ s.successful_profiles = 0 := by
  decide

/-- Roster used by the C7 witness: one fetch failure, one id-less
resolution, one success — none raising. -/
def exEntries7 : List RosterEntry :=
  [⟨"acctA", .fetchFailed "timeout", .ok⟩,
   ⟨"acctB", .fetched "SB" ProfileData.empty, .registryNone⟩,
   ⟨"acctC", .fetched "SC" ProfileData.empty, .ok⟩]

/-- Witness for the amended C7 on a concrete three-entry roster. -/
theorem parse_all_accounts_continues_after_local_failures_witness :
    (∀ e ∈ exEntries7, entryRaises e = false) ∧
    ∃ db' sid succ failed,
      parse_all_accounts emptyDB 0 exEntries7 = (db', .ok (sid, succ, failed)) ∧
      failed.length = (exEntries7.filter entryLocalFailure).length ∧
      succ.length + failed.length = exEntries7.length ∧
      ∀ s ∈ db'.sessions, s.id = sid →
        s.total_profiles = (exEntries7.length : Int) ∧
        s.successful_profiles = (succ.length : Int) ∧
        s.failed_profiles = (failed.length : Int) :=
  ⟨by decide,
    parse_all_accounts_continues_after_local_failures emptyDB 0 exEntries7 (by decide)⟩

/-! ### C6: ordering of `get_session_profiles` -/

/-- When every joined row of the session stores `total_value = 0` — the
state `save_profile_snapshot` always leaves, since it never writes the
column — ORDER BY `total_value` DESC does not reorder anything: the output
is the underlying insertion order. -/
theorem get_session_profiles_of_all_zero (db : DB) (sid : Nat)
    (h0 : ∀ r ∈ session_profiles_join db sid, r.total_value = 0) :
    get_session_profiles db sid = session_profiles_join db sid := by
  apply List.mergeSort_of_sorted
  apply List.pairwise_of_forall_mem_list
  intro a ha b hb
  rw [h0 a ha, h0 b hb]
  exact decide_eq_true le_rfl

/-- C6 amended: `get_session_profiles` returns all snapshots of the
session joined with their profile attributes, ordered by the stored
`total_value` column descending, with ties kept in underlying insertion
order; since `save_profile_snapshot` never writes `total_value`, rows
written through it all tie at the schema default 0 and come back in plain
insertion order, not ordered by `library_value + inventory_value`. -/
theorem get_session_profiles_sorted_by_stored_total_value (db : DB) (sid : Nat) :
    (get_session_profiles db sid).Pairwise
        (fun a b => b.total_value ≤ a.total_value) ∧
    (get_session_profiles db sid).Perm (session_profiles_join db sid) ∧
    ((∀ r ∈ session_profiles_join db sid, r.total_value = 0) →
      get_session_profiles db sid = session_profiles_join db sid) := by
  have htrans : ∀ (a b c : JoinedRow),
      decide (b.total_value ≤ a.total_value) = true →
      decide (c.total_value ≤ b.total_value) = true →
      decide (c.total_value ≤ a.total_value) = true := by
    intro a b c h1 h2
    exact decide_eq_true (le_trans (of_decide_eq_true h2) (of_decide_eq_true h1))
  have htotal : ∀ (a b : JoinedRow),
      (decide (b.total_value ≤ a.total_value)
        || decide (a.total_value ≤ b.total_value)) = true := by
    intro a b
    rcases le_total a.total_value b.total_value with h | h <;> simp [h]
  refine ⟨?_, List.mergeSort_perm _ _, get_session_profiles_of_all_zero db sid⟩
  have hs := List.sorted_mergeSort htrans htotal (session_profiles_join db sid)
  exact hs.imp fun h => of_decide_eq_true h

/-- Measurement payload of the first-written, low-valuation snapshot. -/
def dLow6 : ProfileData :=
  ⟨some "low", some "RU", none, some 3, some 5, some 1, some 1, none, some 9⟩

/-- Measurement payload of the second-written, high-valuation snapshot. -/
def dHigh6 : ProfileData :=
  ⟨some "high", some "DE", none, some 7, some 9, some 5, some 5, none, some 9⟩

/-- A database built only through the repository's operations: one
session, two profiles, and one snapshot per profile — the first worth
1 + 1, the second worth 5 + 5. -/
def exDB6 : DB :=
  save_profile_snapshot
    (save_profile_snapshot
      (get_or_create_profile
        (get_or_create_profile (create_parse_session emptyDB 0).1 "A" dLow6 0).1
        "B" dHigh6 0).1
      1 1 dLow6 "success" none 0)
    1 2 dHigh6 "success" none 0

/-- The joined row of the low-valuation snapshot in `exDB6`. -/
def rLow6 : JoinedRow :=
  ⟨⟨1, "A", some "low", some "RU", none, some 3, none, 0, 0⟩,
    3, 5, 1, 1, 0, 9, "success", none⟩

/-- The joined row of the high-valuation snapshot in `exDB6`. -/
def rHigh6 : JoinedRow :=
  ⟨⟨2, "B", some "high", some "DE", none, some 7, none, 0, 0⟩,
    7, 9, 5, 5, 0, 9, "success", none⟩

/-- In `exDB6`, the session's join is the two rows in insertion order. -/
theorem exDB6_join : session_profiles_join exDB6 1 = [rLow6, rHigh6] := rfl

/-- Every joined row of `exDB6` stores the untouched `total_value` 0. -/
theorem exDB6_join_all_zero : ∀ r ∈ session_profiles_join exDB6 1, r.total_value = 0 := by
  rw [exDB6_join]
  intro r hr
  rcases List.mem_cons.mp hr with h | h
  · subst h
    rfl
  · rw [List.mem_singleton.mp h]
    rfl

/-- C6 counterexample: in `exDB6`, whose two snapshots were written by
`save_profile_snapshot` with valuations 1 + 1 then 5 + 5,
`get_session_profiles` does not return the rows in descending
`library_value + inventory_value` order — the low-valuation row comes
first, because the ORDER BY column is the stored `total_value`, which
`save_profile_snapshot` leaves at 0 for every row. -/
theorem get_session_profiles_not_by_valuation :
    ¬ (get_session_profiles exDB6 1).Pairwise
        (fun a b => b.library_value + b.inventory_value
          ≤ a.library_value + a.inventory_value) := by
  intro hpair
  rw [get_session_profiles_of_all_zero exDB6 1 exDB6_join_all_zero, exDB6_join] at hpair
  have hle := (List.pairwise_cons.mp hpair).1 rHigh6 (List.mem_singleton.mpr rfl)
  simp only [rLow6, rHigh6] at hle
  norm_num at hle

/-- Witness for the amended C6 on `exDB6`: all stored totals are 0 and the
output equals the join in insertion order. -/
theorem get_session_profiles_sorted_by_stored_total_value_witness :
    (∀ r ∈ session_profiles_join exDB6 1, r.total_value = 0) ∧
    get_session_profiles exDB6 1 = session_profiles_join exDB6 1 :=
  ⟨exDB6_join_all_zero,
    (get_session_profiles_sorted_by_stored_total_value exDB6 1).2.2 exDB6_join_all_zero⟩

end SteamParserSQL
